import Mathlib

/-!
Verification development for the gdax-market-indexer pipeline
(`gdax-market-indexer.go`): the per-market streaming-ingest-and-batch-index
pipeline.  The definitions below are a shallow embedding of the Go source:
the read loop of `indexTicker` / `indexOrderBook`, the panic-recovery
wrappers `restartTicker` / `restartOrderBook`, the WaitGroup bookkeeping,
and a small transition system for the shutdown coordination in `main` and
the two shutdown goroutines.
-/

namespace GdaxIndexer

/-! ## Message envelope and frames

The Go code declares `message := gdax.Message{}` once, before the read
loop, and decodes every frame into it with `wsConn.ReadJSON(&message)`.
`ReadJSON` runs `json.Unmarshal` on the existing struct value, so a field
absent from a frame keeps whatever value an earlier frame left in it.  We
model the envelope with a representative set of the `gdax.Message` fields;
the `time` field is a natural number where `0` stands for the zero
`time.Time` value (`message.Time.Time().IsZero()` in the source). -/

/-- Parsed message envelope, the Go `gdax.Message` value the read loop
decodes into.  Field `time = 0` models an absent or zero exchange
timestamp. -/
structure Message where
  typ : String
  time : Nat
  productId : String
  price : String
deriving DecidableEq, Repr

/-- Zero value of the envelope, the Go `gdax.Message{}` literal created
once before the read loop. -/
def Message.empty : Message :=
  { typ := "", time := 0, productId := "", price := "" }

/-- One JSON frame as read off the websocket: each field is `some v` when
the JSON object carries the key and `none` when it omits it. -/
structure Frame where
  typ : Option String
  time : Option Nat
  productId : Option String
  price : Option String
deriving DecidableEq, Repr

/-- Effect of `wsConn.ReadJSON(&message)` on the reused envelope:
`json.Unmarshal` overwrites exactly the fields present in the frame and
leaves absent fields at their previous values. -/
def readJSON (m : Message) (f : Frame) : Message :=
  { typ := f.typ.getD m.typ
    time := f.time.getD m.time
    productId := f.productId.getD m.productId
    price := f.price.getD m.price }

/-- Outcome of one `wsConn.ReadJSON` call inside the loop: either an error
(carrying the message that gets logged) or a successfully decoded frame. -/
inductive ReadResult where
  | readError (msg : String) : ReadResult
  | frame (f : Frame) : ReadResult
deriving DecidableEq, Repr

/-- A read that yields a frame carrying an explicit non-zero timestamp.
Such a read produces a valid envelope regardless of the envelope state it
is merged into. -/
def ReadResult.valid : ReadResult → Bool
  | .readError _ => false
  | .frame f =>
      match f.time with
      | none => false
      | some t => t != 0

/-! ## Bulk index requests and the read loop -/

/-- The Go `elastic.NewBulkIndexRequest().Index(indexName).Type(docType).Doc(message)`
value handed to `elasticBulkProcessor.Add`. -/
structure BulkIndexRequest where
  index : String
  typ : String
  doc : Message
deriving DecidableEq, Repr

/-- Observable actions of one read-loop iteration.  The source loop body
only ever logs a read error, silently skips a zero-timestamp envelope, or
enqueues one bulk index request; `slept` and `reconnected` are included so
that their absence (no backoff, no reconnection inside the loop) is
expressible. -/
inductive LoopEvent where
  | readErrorLogged (msg : String) : LoopEvent
  | enqueued (r : BulkIndexRequest) : LoopEvent
  | slept (seconds : Nat) : LoopEvent
  | reconnected : LoopEvent
deriving DecidableEq, Repr

/-- One iteration of the `for _ = range ticker.C` loop body shared by
`indexTicker` and `indexOrderBook`: one read attempt; on error log and
continue; then the `message.Time.Time().IsZero()` guard; otherwise build
the bulk index request and enqueue it.  Returns the envelope state left
for the next iteration together with the iteration's events. -/
def loopIter (indexName docType : String) (m : Message) (r : ReadResult) :
    Message × List LoopEvent :=
  match r with
  | .readError e => (m, [LoopEvent.readErrorLogged e])
  | .frame f =>
      let m2 := readJSON m f
      if m2.time = 0 then
        (m2, [])
      else
        (m2, [LoopEvent.enqueued { index := indexName, typ := docType, doc := m2 }])

/-- The read loop over a finite schedule of read outcomes, threading the
single reused envelope value from iteration to iteration. -/
def readLoop (indexName docType : String) : Message → List ReadResult → List LoopEvent
  | _, [] => []
  | m, r :: rs =>
      let p := loopIter indexName docType m r
      p.2 ++ readLoop indexName docType p.1 rs

/-- Bulk index requests enqueued by a list of loop events, in order. -/
def enqueuedOps (es : List LoopEvent) : List BulkIndexRequest :=
  es.filterMap fun e =>
    match e with
    | .enqueued r => some r
    | _ => none

/-! ## Stream task start: dial, subscribe, then the loop -/

/-- One channel entry of the subscribe control frame
(`gdax.MessageChannel`). -/
structure MessageChannel where
  name : String
  productIds : List String
deriving DecidableEq, Repr

/-- The subscribe control frame (`gdax.Message` with `Type` and
`Channels`). -/
structure SubscribeMessage where
  typ : String
  channels : List MessageChannel
deriving DecidableEq, Repr

/-- Subscribe frame built by `indexTicker`. -/
def tickerSubscribeMessage (coin : String) : SubscribeMessage :=
  { typ := "subscribe", channels := [{ name := "ticker", productIds := [coin] }] }

/-- Subscribe frame built by `indexOrderBook`. -/
def orderBookSubscribeMessage (coin : String) : SubscribeMessage :=
  { typ := "subscribe", channels := [{ name := "level2", productIds := [coin] }] }

/-- Observable actions of a stream task from its start: error logging
(`logStream.Error`), the attempted `wsConn.WriteJSON(subscribe)`, and the
read-loop events. -/
inductive StreamEvent where
  | logged (msg : String) : StreamEvent
  | sentSubscribe (s : SubscribeMessage) : StreamEvent
  | loop (e : LoopEvent) : StreamEvent
deriving DecidableEq, Repr

/-- Trace of one `indexTicker` task instance, as the source orders it:
dial (log the error if it fails, but do not return), send the subscribe
frame (log a failure, but do not return), then run the read loop on the
zero-value envelope with document type label "ticker".  `dialErr` and
`subErr` carry the error messages when the dial or the subscribe write
fails. -/
def indexTicker (indexName coin : String) (dialErr subErr : Option String)
    (reads : List ReadResult) : List StreamEvent :=
  (match dialErr with
   | some e => [StreamEvent.logged e]
   | none => [])
  ++ [StreamEvent.sentSubscribe (tickerSubscribeMessage coin)]
  ++ (match subErr with
      | some e => [StreamEvent.logged e]
      | none => [])
  ++ (readLoop indexName "ticker" Message.empty reads).map StreamEvent.loop

/-- Trace of one `indexOrderBook` task instance: identical control flow to
`indexTicker` but with channel "level2" and document type label
"snap-shot". -/
def indexOrderBook (indexName coin : String) (dialErr subErr : Option String)
    (reads : List ReadResult) : List StreamEvent :=
  (match dialErr with
   | some e => [StreamEvent.logged e]
   | none => [])
  ++ [StreamEvent.sentSubscribe (orderBookSubscribeMessage coin)]
  ++ (match subErr with
      | some e => [StreamEvent.logged e]
      | none => [])
  ++ (readLoop indexName "snap-shot" Message.empty reads).map StreamEvent.loop

/-- Projection of a stream event to its read-loop event, when it is one. -/
def StreamEvent.loopEvent : StreamEvent → Option LoopEvent
  | .loop l => some l
  | _ => none

/-- Projection of a stream event to the subscribe frame it sends, when it
sends one. -/
def StreamEvent.subscribeSent : StreamEvent → Option SubscribeMessage
  | .sentSubscribe s => some s
  | _ => none

/-- Read-loop events of a stream trace. -/
def streamLoopEvents (es : List StreamEvent) : List LoopEvent :=
  es.filterMap StreamEvent.loopEvent

/-- Subscribe frames sent in a stream trace. -/
def sentSubscribes (es : List StreamEvent) : List SubscribeMessage :=
  es.filterMap StreamEvent.subscribeSent

/-- Bulk index requests enqueued over a whole stream trace. -/
def streamOps (es : List StreamEvent) : List BulkIndexRequest :=
  enqueuedOps (streamLoopEvents es)

/-! ## Supervisor: panic recovery and restart

`restartTicker` and `restartOrderBook` are deferred wrappers: on
`recover()` catching a panic they log, sleep ten seconds, call
`wg.Add(1)` and relaunch the indexer.  The relaunch argument order is
taken verbatim from the source: `restartTicker` calls
`indexTicker(ctx, indexName, coin, ...)` while `restartOrderBook` calls
`indexOrderBook(ctx, coin, indexName, ...)` against the signature
`indexOrderBook(ctx context.Context, indexName, coin string, ...)`. -/

/-- The `(indexName, coin)` argument pair a stream task instance is
started with: `indexName` is bound to the function's first string
parameter and `coin` to its second. -/
structure TaskArgs where
  indexName : String
  coin : String
deriving DecidableEq, Repr

/-- Action taken by a deferred restart wrapper, observed at the task exit
boundary. -/
structure RestartAction where
  sleptSeconds : Nat
  wgAdds : Nat
  relaunched : Option TaskArgs
deriving DecidableEq, Repr

/-- The `restartTicker` wrapper: when the wrapped `indexTicker` panicked,
sleep 10 seconds, `wg.Add(1)`, and call
`indexTicker(ctx, indexName, coin, elasticBulkProcessor)`. -/
def restartTicker (indexName coin : String) (panicked : Bool) : RestartAction :=
  if panicked then
    { sleptSeconds := 10, wgAdds := 1
      relaunched := some { indexName := indexName, coin := coin } }
  else
    { sleptSeconds := 0, wgAdds := 0, relaunched := none }

/-- The `restartOrderBook` wrapper: when the wrapped `indexOrderBook`
panicked, sleep 10 seconds, `wg.Add(1)`, and call
`indexOrderBook(ctx, coin, indexName, elasticBulkProcessor)` — the source
passes `coin` in the `indexName` parameter position and `indexName` in
the `coin` position. -/
def restartOrderBook (indexName coin : String) (panicked : Bool) : RestartAction :=
  if panicked then
    { sleptSeconds := 10, wgAdds := 1
      relaunched := some { indexName := coin, coin := indexName } }
  else
    { sleptSeconds := 0, wgAdds := 0, relaunched := none }

/-! ## WaitGroup bookkeeping of a stream task instance -/

/-- One `sync.WaitGroup` operation on the shared counter `wg`. -/
inductive WgOp where
  | add (n : Nat) : WgOp
  | done : WgOp
deriving DecidableEq, Repr

/-- How a stream task instance terminates: by returning from its function
body or by an unrecovered panic caught by the deferred restart wrapper. -/
inductive TaskOutcome where
  | normalReturn : TaskOutcome
  | panicked : TaskOutcome
deriving DecidableEq, Repr

/-- WaitGroup operations `main` performs before spawning one stream task
goroutine: `wg.Add(1)` directly before each `go indexOrderBook(...)` and
each `go indexTicker(...)`. -/
def mainSpawnWgOps : List WgOp :=
  [WgOp.add 1]

/-- WaitGroup operations executed at the exit boundary of one
`indexTicker` instance, i.e. by its deferred calls (`restartTicker`,
`wsConn.Close`, `ticker.Stop`).  On a normal return `recover()` yields
nil and nothing touches `wg`; on a panic `restartTicker` performs
`wg.Add(1)` before relaunching.  No path performs `wg.Done()`. -/
def indexTickerExitWgOps : TaskOutcome → List WgOp
  | .normalReturn => []
  | .panicked => [WgOp.add 1]

/-- WaitGroup operations executed at the exit boundary of one
`indexOrderBook` instance, by its deferred `restartOrderBook`; as for the
ticker, no path performs `wg.Done()`. -/
def indexOrderBookExitWgOps : TaskOutcome → List WgOp
  | .normalReturn => []
  | .panicked => [WgOp.add 1]

/-! ## Shutdown coordination

A small transition system over the process state after startup with `k`
configured markets.  `main` performs `wg.Add(1)` twice per market (order
book and ticker tasks) and once for each of the two shutdown goroutines
(the elastic-client stopper registered in `initializeElasticClient` and
the bulk-processor closer registered in `initializeElasticBulkProcessor`),
so the counter starts at `2*k + 2`.  Each stream task instance spawns a
watcher goroutine that calls `os.Exit(1)` once the context is cancelled.
The two shutdown goroutines wait on `ctx.Done()`, perform their
close/stop work, and only then run their deferred `wg.Done()`.  `main`
itself returns only after `cancel()` and `wg.Wait()`, i.e. once the
counter reaches zero.  Stream task instances never decrement the counter
(see `indexTickerExitWgOps`), so no transition does. -/

/-- How the process terminated: `os.Exit(1)` from a stream task's
cancellation watcher, or `main` returning after `wg.Wait()`. -/
inductive ExitKind where
  | watcherExit : ExitKind
  | mainReturn : ExitKind
deriving DecidableEq, Repr

/-- Process state for the shutdown coordination. -/
structure ShutdownState where
  counter : Nat
  cancelled : Bool
  streamTasks : Nat
  bulkClosed : Bool
  bulkDone : Bool
  clientStopped : Bool
  clientDone : Bool
  exited : Option ExitKind
deriving DecidableEq, Repr

/-- State right after startup with `k` configured markets: `2*k` stream
task registrations plus one for each of the two shutdown goroutines. -/
def initState (k : Nat) : ShutdownState :=
  { counter := 2 * k + 2, cancelled := false, streamTasks := 2 * k
    bulkClosed := false, bulkDone := false
    clientStopped := false, clientDone := false, exited := none }

/-- One step of the shutdown coordination.  Every transition requires the
process to be alive.  `interrupt` is the signal handler plus `cancel()`;
`bulkClose` is `elasticBulkProcessor.Close()` completing (the final flush
of any outstanding batch); `bulkDoneStep` is that goroutine's deferred
`wg.Done()`; `clientStop` is `elasticClient.Stop()` releasing the
connection and `clientDoneStep` its deferred `wg.Done()`; `watcherFires`
is a stream task watcher observing `ctx.Done()` and calling `os.Exit(1)`;
`mainExits` is `wg.Wait()` returning with the counter at zero and `main`
returning. -/
inductive Step : ShutdownState → ShutdownState → Prop where
  | interrupt (s : ShutdownState) (h1 : s.exited = none)
      (h2 : s.cancelled = false) :
      Step s { s with cancelled := true }
  | bulkClose (s : ShutdownState) (h1 : s.exited = none)
      (h2 : s.cancelled = true) (h3 : s.bulkClosed = false) :
      Step s { s with bulkClosed := true }
  | bulkDoneStep (s : ShutdownState) (h1 : s.exited = none)
      (h2 : s.bulkClosed = true) (h3 : s.bulkDone = false) :
      Step s { s with bulkDone := true, counter := s.counter - 1 }
  | clientStop (s : ShutdownState) (h1 : s.exited = none)
      (h2 : s.cancelled = true) (h3 : s.clientStopped = false) :
      Step s { s with clientStopped := true }
  | clientDoneStep (s : ShutdownState) (h1 : s.exited = none)
      (h2 : s.clientStopped = true) (h3 : s.clientDone = false) :
      Step s { s with clientDone := true, counter := s.counter - 1 }
  | watcherFires (s : ShutdownState) (h1 : s.exited = none)
      (h2 : s.cancelled = true) (h3 : 0 < s.streamTasks) :
      Step s { s with exited := some ExitKind.watcherExit }
  | mainExits (s : ShutdownState) (h1 : s.exited = none)
      (h2 : s.cancelled = true) (h3 : s.counter = 0) :
      Step s { s with exited := some ExitKind.mainReturn }

/-- States reachable from the post-startup state with `k` markets. -/
inductive Reachable (k : Nat) : ShutdownState → Prop where
  | init : Reachable k (initState k)
  | tail {s t : ShutdownState} : Reachable k s → Step s t → Reachable k t

/-- Counter bookkeeping invariant: the counter always equals the two
shutdown goroutines' outstanding registrations plus the `2*k` stream task
registrations (which are never released), and a shutdown goroutine's
`wg.Done()` only ever runs after its close/stop work finished. -/
def CounterInv (k : Nat) (s : ShutdownState) : Prop :=
  s.counter = (if s.bulkDone then 0 else 1) + (if s.clientDone then 0 else 1)
      + s.streamTasks
    ∧ s.streamTasks = 2 * k
    ∧ (s.bulkDone = true → s.bulkClosed = true)
    ∧ (s.clientDone = true → s.clientStopped = true)

theorem counterInv_step (k : Nat) (s t : ShutdownState)
    (hs : CounterInv k s) (hstep : Step s t) : CounterInv k t := by
  obtain ⟨hc, hst, hb, hcl⟩ := hs
  cases hstep with
  | interrupt h1 h2 => exact ⟨hc, hst, hb, hcl⟩
  | bulkClose h1 h2 h3 => exact ⟨hc, hst, fun _ => rfl, hcl⟩
  | bulkDoneStep h1 h2 h3 =>
      refine ⟨?_, hst, fun _ => h2, hcl⟩
      show s.counter - 1
        = (if true = true then 0 else 1) + (if s.clientDone = true then 0 else 1)
          + s.streamTasks
      rw [h3] at hc
      by_cases hcd : s.clientDone = true <;> simp [hcd] at hc ⊢ <;> omega
  | clientStop h1 h2 h3 => exact ⟨hc, hst, hb, fun _ => rfl⟩
  | clientDoneStep h1 h2 h3 =>
      refine ⟨?_, hst, hb, fun _ => h2⟩
      show s.counter - 1
        = (if s.bulkDone = true then 0 else 1) + (if true = true then 0 else 1)
          + s.streamTasks
      rw [h3] at hc
      by_cases hbd : s.bulkDone = true <;> simp [hbd] at hc ⊢ <;> omega
  | watcherFires h1 h2 h3 => exact ⟨hc, hst, hb, hcl⟩
  | mainExits h1 h2 h3 => exact ⟨hc, hst, hb, hcl⟩

theorem counterInv_reachable (k : Nat) (s : ShutdownState)
    (h : Reachable k s) : CounterInv k s := by
  induction h with
  | init =>
      refine ⟨?_, rfl, ?_, ?_⟩
      · show 2 * k + 2 = (if false = true then 0 else 1) + (if false = true then 0 else 1) + (2 * k)
        simp
        omega
      · intro hcon
        exact absurd hcon (by simp [initState])
      · intro hcon
        exact absurd hcon (by simp [initState])
  | tail _ hstep ih => exact counterInv_step _ _ _ ih hstep

/-! ## Helper lemmas about the read loop and stream traces -/

theorem enqueuedOps_append (a b : List LoopEvent) :
    enqueuedOps (a ++ b) = enqueuedOps a ++ enqueuedOps b := by
  simp [enqueuedOps]

theorem readLoop_cons_readError (indexName docType e : String) (m : Message)
    (rs : List ReadResult) :
    readLoop indexName docType m (ReadResult.readError e :: rs)
      = LoopEvent.readErrorLogged e :: readLoop indexName docType m rs := by
  simp [readLoop, loopIter]

theorem readLoop_cons_zeroTime (indexName docType : String) (m : Message)
    (f : Frame) (h : (readJSON m f).time = 0) (rs : List ReadResult) :
    readLoop indexName docType m (ReadResult.frame f :: rs)
      = readLoop indexName docType (readJSON m f) rs := by
  simp [readLoop, loopIter, h]

theorem readLoop_cons_valid (indexName docType : String) (m : Message)
    (f : Frame) (t : Nat) (hf : f.time = some t) (ht : t ≠ 0)
    (rs : List ReadResult) :
    readLoop indexName docType m (ReadResult.frame f :: rs)
      = LoopEvent.enqueued
          { index := indexName, typ := docType, doc := readJSON m f }
        :: readLoop indexName docType (readJSON m f) rs := by
  have hm2 : (readJSON m f).time = t := by simp [readJSON, hf]
  simp [readLoop, loopIter, hm2, ht]

theorem enqueuedOps_readLoop_valid (indexName docType : String) :
    ∀ (rs : List ReadResult) (m : Message),
      (∀ r ∈ rs, r.valid = true) →
      (enqueuedOps (readLoop indexName docType m rs)).length = rs.length
      ∧ ∀ op ∈ enqueuedOps (readLoop indexName docType m rs),
          op.index = indexName ∧ op.typ = docType := by
  intro rs
  induction rs with
  | nil =>
      intro m _
      simp [readLoop, enqueuedOps]
  | cons r rs ih =>
      intro m h
      have hr := h r (List.mem_cons_self r rs)
      have hrs := fun x hx => h x (List.mem_cons_of_mem r hx)
      cases r with
      | readError e => simp [ReadResult.valid] at hr
      | frame f =>
          cases hf : f.time with
          | none => simp [ReadResult.valid, hf] at hr
          | some t =>
              have ht : t ≠ 0 := by simpa [ReadResult.valid, hf] using hr
              obtain ⟨ihl, ihm⟩ := ih (readJSON m f) hrs
              rw [readLoop_cons_valid indexName docType m f t hf ht rs]
              constructor
              · simp [enqueuedOps] at ihl ⊢
                exact ihl
              · intro op hop
                simp [enqueuedOps] at hop
                rcases hop with hop | hop
                · simp [hop]
                · exact ihm op (by simpa [enqueuedOps] using hop)

theorem streamLoopEvents_map_loop (l : List LoopEvent) :
    streamLoopEvents (l.map StreamEvent.loop) = l := by
  induction l with
  | nil => rfl
  | cons x xs ih =>
      simp only [List.map_cons, streamLoopEvents, List.filterMap_cons,
        StreamEvent.loopEvent] at ih ⊢
      rw [ih]

theorem sentSubscribes_map_loop (l : List LoopEvent) :
    sentSubscribes (l.map StreamEvent.loop) = [] := by
  induction l with
  | nil => rfl
  | cons x xs ih =>
      simp only [List.map_cons, sentSubscribes, List.filterMap_cons,
        StreamEvent.subscribeSent] at ih ⊢
      exact ih

theorem streamLoopEvents_indexTicker (indexName coin : String)
    (de se : Option String) (rs : List ReadResult) :
    streamLoopEvents (indexTicker indexName coin de se rs)
      = readLoop indexName "ticker" Message.empty rs := by
  have h := streamLoopEvents_map_loop (readLoop indexName "ticker" Message.empty rs)
  cases de <;> cases se <;>
    simpa [indexTicker, streamLoopEvents, List.filterMap_append,
      StreamEvent.loopEvent] using h

theorem streamLoopEvents_indexOrderBook (indexName coin : String)
    (de se : Option String) (rs : List ReadResult) :
    streamLoopEvents (indexOrderBook indexName coin de se rs)
      = readLoop indexName "snap-shot" Message.empty rs := by
  have h := streamLoopEvents_map_loop (readLoop indexName "snap-shot" Message.empty rs)
  cases de <;> cases se <;>
    simpa [indexOrderBook, streamLoopEvents, List.filterMap_append,
      StreamEvent.loopEvent] using h

theorem sentSubscribes_indexTicker (indexName coin : String)
    (de se : Option String) (rs : List ReadResult) :
    sentSubscribes (indexTicker indexName coin de se rs)
      = [tickerSubscribeMessage coin] := by
  cases de <;> cases se <;>
    simp [indexTicker, sentSubscribes, List.filterMap_append,
      StreamEvent.subscribeSent]

theorem sentSubscribes_indexOrderBook (indexName coin : String)
    (de se : Option String) (rs : List ReadResult) :
    sentSubscribes (indexOrderBook indexName coin de se rs)
      = [orderBookSubscribeMessage coin] := by
  cases de <;> cases se <;>
    simp [indexOrderBook, sentSubscribes, List.filterMap_append,
      StreamEvent.subscribeSent]

/-! ## Claim theorems -/

/-- C1 (code bug): the supervisor wrappers both back off 10 seconds and
relaunch, and `restartTicker` relaunches `indexTicker` with the original
`(indexName, coin)` pair; but `restartOrderBook` passes `coin` in the
`indexName` parameter position of `indexOrderBook` and `indexName` in the
`coin` position, so the relaunched order-book task does NOT receive the
same index name and market symbol as the faulted task. -/
theorem orderBookRestart_swaps_index_and_market :
    restartTicker "gdax-market" "BTC-USD" true
      = { sleptSeconds := 10, wgAdds := 1
          relaunched := some { indexName := "gdax-market", coin := "BTC-USD" } }
    ∧ restartOrderBook "gdax-market" "BTC-USD" true
      = { sleptSeconds := 10, wgAdds := 1
          relaunched := some { indexName := "BTC-USD", coin := "gdax-market" } }
    ∧ (restartOrderBook "gdax-market" "BTC-USD" true).relaunched
      ≠ some { indexName := "gdax-market", coin := "BTC-USD" } := by
  refine ⟨rfl, rfl, ?_⟩
  decide

/-- C2: a frame whose merged envelope has an absent or zero exchange
timestamp produces no events at all in its iteration — in particular no
index operation is enqueued — and the read loop silently proceeds to the
remaining reads with the merged envelope. -/
theorem zero_timestamp_envelope_enqueues_nothing
    (indexName docType : String) (m : Message) (f : Frame)
    (rs : List ReadResult) (h : (readJSON m f).time = 0) :
    loopIter indexName docType m (ReadResult.frame f) = (readJSON m f, [])
    ∧ readLoop indexName docType m (ReadResult.frame f :: rs)
        = readLoop indexName docType (readJSON m f) rs := by
  constructor
  · simp [loopIter, h]
  · exact readLoop_cons_zeroTime indexName docType m f h rs

/-- Witness for C2 at a concrete input: the all-absent frame merged into
the zero envelope has timestamp zero, yields no iteration events, and the
loop moves on. -/
theorem zero_timestamp_envelope_enqueues_nothing_witness :
    (readJSON Message.empty { typ := none, time := none, productId := none, price := none }).time = 0
    ∧ loopIter "gdax-market" "ticker" Message.empty
        (ReadResult.frame { typ := none, time := none, productId := none, price := none })
        = (readJSON Message.empty { typ := none, time := none, productId := none, price := none }, [])
    ∧ readLoop "gdax-market" "ticker" Message.empty
        [ReadResult.frame { typ := none, time := none, productId := none, price := none }]
        = readLoop "gdax-market" "ticker"
            (readJSON Message.empty { typ := none, time := none, productId := none, price := none }) [] := by
  refine ⟨rfl, ?_, ?_⟩
  · exact (zero_timestamp_envelope_enqueues_nothing "gdax-market" "ticker"
      Message.empty { typ := none, time := none, productId := none, price := none } [] rfl).1
  · exact (zero_timestamp_envelope_enqueues_nothing "gdax-market" "ticker"
      Message.empty { typ := none, time := none, productId := none, price := none } [] rfl).2

/-- C3: for a schedule of reads that all succeed with frames carrying a
non-zero timestamp, the ticker task enqueues exactly one bulk index
request per read, each tagged with the configured index name and document
type "ticker", and the order-book task likewise with document type
"snap-shot". -/
theorem valid_reads_enqueue_exactly_one_op_each
    (indexName coin : String) (de se : Option String) (rs : List ReadResult)
    (h : ∀ r ∈ rs, r.valid = true) :
    (streamOps (indexTicker indexName coin de se rs)).length = rs.length
    ∧ (∀ op ∈ streamOps (indexTicker indexName coin de se rs),
        op.index = indexName ∧ op.typ = "ticker")
    ∧ (streamOps (indexOrderBook indexName coin de se rs)).length = rs.length
    ∧ (∀ op ∈ streamOps (indexOrderBook indexName coin de se rs),
        op.index = indexName ∧ op.typ = "snap-shot") := by
  have ht := enqueuedOps_readLoop_valid indexName "ticker" rs Message.empty h
  have ho := enqueuedOps_readLoop_valid indexName "snap-shot" rs Message.empty h
  rw [streamOps, streamLoopEvents_indexTicker, streamOps,
    streamLoopEvents_indexOrderBook]
  exact ⟨ht.1, ht.2, ho.1, ho.2⟩

/-- Witness for C3 at a concrete input: two valid frames through a ticker
task and an order-book task each yield exactly two requests with the
configured index name and the channel's document type. -/
theorem valid_reads_enqueue_exactly_one_op_each_witness :
    (streamOps (indexTicker "gdax-market" "BTC-USD" none none
        [ReadResult.frame { typ := some "ticker", time := some 5, productId := some "BTC-USD", price := some "1" },
         ReadResult.frame { typ := some "ticker", time := some 7, productId := none, price := none }])).length = 2
    ∧ ∀ op ∈ streamOps (indexOrderBook "gdax-market" "BTC-USD" none none
        [ReadResult.frame { typ := some "ticker", time := some 5, productId := some "BTC-USD", price := some "1" },
         ReadResult.frame { typ := some "ticker", time := some 7, productId := none, price := none }]),
        op.index = "gdax-market" ∧ op.typ = "snap-shot" := by
  have h := valid_reads_enqueue_exactly_one_op_each "gdax-market" "BTC-USD" none none
    [ReadResult.frame { typ := some "ticker", time := some 5, productId := some "BTC-USD", price := some "1" },
     ReadResult.frame { typ := some "ticker", time := some 7, productId := none, price := none }]
    (by decide)
  exact ⟨h.1, h.2.2.2⟩

/-- C4 (code bug): `main` and the restart wrappers add a registration
(`wg.Add(1)`) before a stream task instance begins, but no exit path of
`indexTicker` or `indexOrderBook` ever performs `wg.Done()`: a normal
return touches the counter not at all and a panic only adds a fresh
registration for the relaunch, so the terminating instance's entry is
never removed. -/
theorem stream_task_exit_never_calls_wgDone :
    mainSpawnWgOps = [WgOp.add 1]
    ∧ indexTickerExitWgOps TaskOutcome.normalReturn = []
    ∧ indexTickerExitWgOps TaskOutcome.panicked = [WgOp.add 1]
    ∧ indexOrderBookExitWgOps TaskOutcome.normalReturn = []
    ∧ indexOrderBookExitWgOps TaskOutcome.panicked = [WgOp.add 1]
    ∧ (∀ o : TaskOutcome, WgOp.done ∉ indexTickerExitWgOps o)
    ∧ (∀ o : TaskOutcome, WgOp.done ∉ indexOrderBookExitWgOps o) := by
  refine ⟨rfl, rfl, rfl, rfl, rfl, ?_, ?_⟩ <;> intro o <;> cases o <;> decide

/-- Reachable state witnessing that the process can be gone while the
counter is still positive: one market (two stream tasks), interrupt
received, a cancellation watcher fired `os.Exit(1)`. -/
def watcherExitState : ShutdownState :=
  { counter := 4, cancelled := true, streamTasks := 2
    bulkClosed := false, bulkDone := false
    clientStopped := false, clientDone := false
    exited := some ExitKind.watcherExit }

/-- C5 counterexample: with one configured market, after the interrupt a
stream task's cancellation watcher calls `os.Exit(1)` and the process
exits while the outstanding-task counter is still 4, so the process does
not always wait for the counter to reach zero. -/
theorem process_exits_with_nonzero_counter :
    Reachable 1 watcherExitState
    ∧ watcherExitState.cancelled = true
    ∧ watcherExitState.exited = some ExitKind.watcherExit
    ∧ watcherExitState.counter = 4 := by
  refine ⟨?_, rfl, rfl, rfl⟩
  have h1 : Step (initState 1)
      ({ counter := 4, cancelled := true, streamTasks := 2
         bulkClosed := false, bulkDone := false
         clientStopped := false, clientDone := false
         exited := none } : ShutdownState) :=
    Step.interrupt _ rfl rfl
  have h2 : Step
      ({ counter := 4, cancelled := true, streamTasks := 2
         bulkClosed := false, bulkDone := false
         clientStopped := false, clientDone := false
         exited := none } : ShutdownState)
      watcherExitState :=
    Step.watcherFires _ rfl rfl (by decide)
  exact Reachable.tail (Reachable.tail Reachable.init h1) h2

/-- C5 amended: the path through `main` itself — `wg.Wait()` returning
and `main` exiting — is only taken once the outstanding-task counter is
zero; a step that ends with the process exited through the main return
leaves the counter at zero. -/
theorem main_return_requires_zero_counter (s t : ShutdownState)
    (hstep : Step s t) (hexit : t.exited = some ExitKind.mainReturn) :
    t.counter = 0 := by
  cases hstep <;> simp_all

/-- Witness for the amended C5 at a concrete input: from a cancelled
state with counter zero, the main-return step exits with counter zero. -/
theorem main_return_requires_zero_counter_witness :
    ({ counter := 0, cancelled := true, streamTasks := 0
       bulkClosed := true, bulkDone := true
       clientStopped := true, clientDone := true
       exited := some ExitKind.mainReturn } : ShutdownState).counter = 0 :=
  main_return_requires_zero_counter
    { counter := 0, cancelled := true, streamTasks := 0
      bulkClosed := true, bulkDone := true
      clientStopped := true, clientDone := true, exited := none }
    _ (Step.mainExits _ rfl rfl rfl) rfl

/-- C6: in every reachable state of the shutdown coordination, if the
outstanding-task counter has reached zero then the bulk processor has
completed its final flush (its `Close()` returned) and the elastic client
has been stopped (connection released): each shutdown goroutine runs its
deferred `wg.Done()` only after its close/stop work. -/
theorem flush_and_stop_before_counter_zero (k : Nat) (s : ShutdownState)
    (hreach : Reachable k s) (hzero : s.counter = 0) :
    s.bulkClosed = true ∧ s.clientStopped = true := by
  obtain ⟨hc, hst, hb, hcl⟩ := counterInv_reachable k s hreach
  rw [hzero] at hc
  by_cases hbd : s.bulkDone = true <;> by_cases hcd : s.clientDone = true
  · exact ⟨hb hbd, hcl hcd⟩
  · rw [if_pos hbd, if_neg hcd] at hc
    omega
  · rw [if_neg hbd, if_pos hcd] at hc
    omega
  · rw [if_neg hbd, if_neg hcd] at hc
    omega

/-- Witness for C6 at a concrete input: with zero markets, the run
interrupt, close, done, stop, done reaches a counter of zero, and the
theorem yields that the flush and the stop have both happened there. -/
theorem flush_and_stop_before_counter_zero_witness :
    ({ counter := 0, cancelled := true, streamTasks := 0
       bulkClosed := true, bulkDone := true
       clientStopped := true, clientDone := true
       exited := none } : ShutdownState).bulkClosed = true
    ∧ ({ counter := 0, cancelled := true, streamTasks := 0
         bulkClosed := true, bulkDone := true
         clientStopped := true, clientDone := true
         exited := none } : ShutdownState).clientStopped = true := by
  have h1 : Reachable 0
      ({ counter := 2, cancelled := true, streamTasks := 0
         bulkClosed := false, bulkDone := false
         clientStopped := false, clientDone := false
         exited := none } : ShutdownState) :=
    Reachable.tail Reachable.init (Step.interrupt _ rfl rfl)
  have h2 : Reachable 0
      ({ counter := 2, cancelled := true, streamTasks := 0
         bulkClosed := true, bulkDone := false
         clientStopped := false, clientDone := false
         exited := none } : ShutdownState) :=
    Reachable.tail h1 (Step.bulkClose _ rfl rfl rfl)
  have h3 : Reachable 0
      ({ counter := 1, cancelled := true, streamTasks := 0
         bulkClosed := true, bulkDone := true
         clientStopped := false, clientDone := false
         exited := none } : ShutdownState) :=
    Reachable.tail h2 (Step.bulkDoneStep _ rfl rfl rfl)
  have h4 : Reachable 0
      ({ counter := 1, cancelled := true, streamTasks := 0
         bulkClosed := true, bulkDone := true
         clientStopped := true, clientDone := false
         exited := none } : ShutdownState) :=
    Reachable.tail h3 (Step.clientStop _ rfl rfl rfl)
  have h5 : Reachable 0
      ({ counter := 0, cancelled := true, streamTasks := 0
         bulkClosed := true, bulkDone := true
         clientStopped := true, clientDone := true
         exited := none } : ShutdownState) :=
    Reachable.tail h4 (Step.clientDoneStep _ rfl rfl rfl)
  exact flush_and_stop_before_counter_zero 0 _ h5 rfl

/-- C7: for every task start — whatever combination of dial failure and
subscribe-write failure occurs (one, the other, both, or neither) — each
failure that occurs is logged, and the task nonetheless proceeds into its
read loop: its read-loop events are exactly those of the failure-free
run, for both channels. -/
theorem connect_failures_logged_and_loop_runs
    (indexName coin : String) (de se : Option String) (rs : List ReadResult) :
    (∀ e : String, de = some e →
      StreamEvent.logged e ∈ indexTicker indexName coin de se rs
      ∧ StreamEvent.logged e ∈ indexOrderBook indexName coin de se rs)
    ∧ (∀ e : String, se = some e →
      StreamEvent.logged e ∈ indexTicker indexName coin de se rs
      ∧ StreamEvent.logged e ∈ indexOrderBook indexName coin de se rs)
    ∧ streamLoopEvents (indexTicker indexName coin de se rs)
        = streamLoopEvents (indexTicker indexName coin none none rs)
    ∧ streamLoopEvents (indexOrderBook indexName coin de se rs)
        = streamLoopEvents (indexOrderBook indexName coin none none rs) := by
  refine ⟨?_, ?_, ?_, ?_⟩
  · intro e he
    subst he
    constructor <;> simp [indexTicker, indexOrderBook]
  · intro e he
    subst he
    constructor <;> cases de <;> simp [indexTicker, indexOrderBook]
  · rw [streamLoopEvents_indexTicker, streamLoopEvents_indexTicker]
  · rw [streamLoopEvents_indexOrderBook, streamLoopEvents_indexOrderBook]

/-- Witness for C7 at a concrete input: a ticker start on which only the
subscribe write fails (the dial succeeded); the failure is logged and the
read loop runs exactly as in the failure-free run on one valid read. -/
theorem connect_failures_logged_and_loop_runs_witness :
    StreamEvent.logged "write: broken pipe"
      ∈ indexTicker "gdax-market" "BTC-USD" none (some "write: broken pipe")
          [ReadResult.frame { typ := some "ticker", time := some 5, productId := none, price := none }]
    ∧ streamLoopEvents (indexTicker "gdax-market" "BTC-USD" none (some "write: broken pipe")
          [ReadResult.frame { typ := some "ticker", time := some 5, productId := none, price := none }])
        = streamLoopEvents (indexTicker "gdax-market" "BTC-USD" none none
          [ReadResult.frame { typ := some "ticker", time := some 5, productId := none, price := none }]) := by
  have h := connect_failures_logged_and_loop_runs "gdax-market" "BTC-USD"
    none (some "write: broken pipe")
    [ReadResult.frame { typ := some "ticker", time := some 5, productId := none, price := none }]
  exact ⟨(h.2.1 "write: broken pipe" rfl).1, h.2.2.1⟩

/-- C8: a failed read attempt is logged and nothing else happens in that
iteration: the envelope is unchanged, no index operation is enqueued, no
sleep and no reconnection occur, and the loop continues with the
remaining reads from the same state. -/
theorem read_error_logs_and_continues
    (indexName docType e : String) (m : Message) (rs : List ReadResult) :
    loopIter indexName docType m (ReadResult.readError e)
      = (m, [LoopEvent.readErrorLogged e])
    ∧ readLoop indexName docType m (ReadResult.readError e :: rs)
        = LoopEvent.readErrorLogged e :: readLoop indexName docType m rs
    ∧ enqueuedOps [LoopEvent.readErrorLogged e] = []
    ∧ (∀ n, LoopEvent.slept n ∉ (loopIter indexName docType m (ReadResult.readError e)).2)
    ∧ LoopEvent.reconnected ∉ (loopIter indexName docType m (ReadResult.readError e)).2 := by
  refine ⟨rfl, readLoop_cons_readError indexName docType e m rs, rfl, ?_, ?_⟩
  · intro n
    simp [loopIter]
  · simp [loopIter]

/-- C9: for every task start, whatever the dial or subscribe outcome and
whatever is later read, exactly one subscribe frame is sent; it has type
tag "subscribe" and names exactly one channel with exactly one product
id: channel "ticker" with the task's market for the ticker task, channel
"level2" with the task's market for the order-book task. -/
theorem exactly_one_subscribe_frame
    (indexName coin : String) (de se : Option String) (rs : List ReadResult) :
    sentSubscribes (indexTicker indexName coin de se rs)
      = [{ typ := "subscribe"
           channels := [{ name := "ticker", productIds := [coin] }] }]
    ∧ sentSubscribes (indexOrderBook indexName coin de se rs)
      = [{ typ := "subscribe"
           channels := [{ name := "level2", productIds := [coin] }] }] :=
  ⟨sentSubscribes_indexTicker indexName coin de se rs,
   sentSubscribes_indexOrderBook indexName coin de se rs⟩

/-- C10: the loop decodes every frame into the one envelope value it
threads from iteration to iteration without resetting it, so a later
frame that omits a field leaves the earlier frame's value in place: with
a first frame carrying a price and a second valid frame omitting it, the
second enqueued request's document still carries the first frame's
price. -/
theorem envelope_reuse_carries_stale_fields
    (indexName docType : String) (m : Message) (f1 f2 : Frame)
    (p : String) (t1 t2 : Nat)
    (hp1 : f1.price = some p) (ht1 : f1.time = some t1) (h1 : t1 ≠ 0)
    (hp2 : f2.price = none) (ht2 : f2.time = some t2) (h2 : t2 ≠ 0) :
    (readJSON (readJSON m f1) f2).price = p
    ∧ readLoop indexName docType m [ReadResult.frame f1, ReadResult.frame f2]
      = [LoopEvent.enqueued
           { index := indexName, typ := docType, doc := readJSON m f1 },
         LoopEvent.enqueued
           { index := indexName, typ := docType
             doc := readJSON (readJSON m f1) f2 }] := by
  constructor
  · simp [readJSON, hp2, hp1]
  · rw [readLoop_cons_valid indexName docType m f1 t1 ht1 h1,
      readLoop_cons_valid indexName docType (readJSON m f1) f2 t2 ht2 h2]
    rfl

/-- Witness for C10 at a concrete input: reading a frame with price "42"
and then a frame without a price, the merged envelope still has price
"42" and both iterations enqueue, the second with the stale price. -/
theorem envelope_reuse_carries_stale_fields_witness :
    (readJSON (readJSON Message.empty
        { typ := some "ticker", time := some 5, productId := some "BTC-USD", price := some "42" })
        { typ := some "ticker", time := some 6, productId := none, price := none }).price = "42"
    ∧ readLoop "gdax-market" "ticker" Message.empty
        [ReadResult.frame { typ := some "ticker", time := some 5, productId := some "BTC-USD", price := some "42" },
         ReadResult.frame { typ := some "ticker", time := some 6, productId := none, price := none }]
      = [LoopEvent.enqueued
           { index := "gdax-market", typ := "ticker"
             doc := readJSON Message.empty
               { typ := some "ticker", time := some 5, productId := some "BTC-USD", price := some "42" } },
         LoopEvent.enqueued
           { index := "gdax-market", typ := "ticker"
             doc := readJSON (readJSON Message.empty
                 { typ := some "ticker", time := some 5, productId := some "BTC-USD", price := some "42" })
               { typ := some "ticker", time := some 6, productId := none, price := none } }] :=
  envelope_reuse_carries_stale_fields "gdax-market" "ticker" Message.empty
    { typ := some "ticker", time := some 5, productId := some "BTC-USD", price := some "42" }
    { typ := some "ticker", time := some 6, productId := none, price := none }
    "42" 5 6 rfl rfl (by decide) rfl rfl (by decide)

end GdaxIndexer
